import Mathlib

/-!
# Verification of the WaniKani Apprentice API client and cache

A shallow embedding of the core of `wanikani-apprentice`: the paginated
WaniKani API client (`src/wanikani_apprentice/wanikani.py`), the in-memory
subject store and its population orchestrator
(`src/wanikani_apprentice/db.py`), the subject models
(`src/wanikani_apprentice/models.py`) and the login key-validation flow
(`src/wanikani_apprentice/app.py`).

Python dictionaries are embedded as association lists with Python's
insert-or-overwrite semantics; HTTP traffic is embedded by an explicit list
of responses consumed by the pagination loop, which records the requests it
issues; `httpx` query-parameter merging (`QueryParams.merge`, i.e. the
Python dict update `\x7b**url_params, **request_params\x7d`) is embedded
explicitly, since the client passes its filter parameters on every request
of a pagination walk.
-/

namespace WanikaniApprentice

/-! ## Python dict as association list

`dict[k] = v` keeps the position of an existing key and overwrites its
value, otherwise appends; `dict[k]` looks the key up. -/

def dictInsert {α : Type} (m : List (Nat × α)) (k : Nat) (v : α) : List (Nat × α) :=
  match m with
  | [] => [(k, v)]
  | (k₀, v₀) :: rest => if k₀ = k then (k, v) :: rest else (k₀, v₀) :: dictInsert rest k v

def dictGet? {α : Type} (m : List (Nat × α)) (k : Nat) : Option α :=
  match m with
  | [] => none
  | (k₀, v₀) :: rest => if k₀ = k then some v₀ else dictGet? rest k

/-! ## Subject models (`models.py`)

`attrs` does not validate annotations at runtime, and the upstream JSON
`characters` field is nullable (radicals may ship an image instead of a
glyph), so `characters` is embedded as `Option String` throughout: the
client passes the raw JSON value through unchecked. -/

structure Radical where
  id : Nat
  document_url : String
  characters : Option String
  character_svg_path : Option String
  meanings : List String
  deriving Repr, DecidableEq

structure Kanji where
  id : Nat
  document_url : String
  characters : Option String
  meanings : List String
  readings : List String
  deriving Repr, DecidableEq

structure Vocabulary where
  id : Nat
  document_url : String
  characters : Option String
  meanings : List String
  readings : List String
  deriving Repr, DecidableEq

inductive Subject where
  | radical (r : Radical)
  | kanji (k : Kanji)
  | vocabulary (v : Vocabulary)
  deriving Repr, DecidableEq

/-- `models.Assignment`; `available_at` is kept as the upstream ISO-8601
string (its parse by `ciso8601` is irrelevant to the claims below). -/
structure Assignment where
  subject : Subject
  srs_stage : Nat
  available_at : String
  deriving Repr, DecidableEq

/-! ## The subject store (`db.Database`) -/

structure Database where
  radical : List (Nat × Radical)
  kanji : List (Nat × Kanji)
  vocabulary : List (Nat × Vocabulary)
  deriving Repr, DecidableEq

def Database.empty : Database := ⟨[], [], []⟩

/-! ## Raw upstream items and `SubjectType` (`wanikani.py`) -/

inductive SubjectType where
  | RADICAL
  | KANJI
  | VOCABULARY
  deriving Repr, DecidableEq

/-- The `str`-enum value of a `SubjectType`. -/
def SubjectType.value : SubjectType → String
  | .RADICAL => "radical"
  | .KANJI => "kanji"
  | .VOCABULARY => "vocabulary"

structure MeaningEntry where
  meaning : String
  accepted_answer : Bool
  deriving Repr, DecidableEq

structure ReadingEntry where
  reading : String
  accepted_answer : Bool
  deriving Repr, DecidableEq

/-- The `data` object of one raw subject item of the `subjects` endpoint. -/
structure RawSubjectData where
  document_url : String
  characters : Option String
  meanings : List MeaningEntry
  readings : List ReadingEntry
  deriving Repr, DecidableEq

/-- One raw item of a `subjects` page: `\x7bid, data: \x7b...\x7d\x7d`. -/
structure RawSubject where
  id : Nat
  data : RawSubjectData
  deriving Repr, DecidableEq

/-! ## String machinery for URL handling

The pagination loop runs `next_url.split(f"BASE_URL/", 1)[1]` and `httpx`
parses the resulting path-plus-query string back into a URL whose query is
merged with the request parameters. Python string splitting is embedded
over `List Char` with explicit fuel (one unit per consumed character, so
fuel `length + 1` never runs out). -/

/-- If `pre` is a prefix of `xs`, the remainder after it. -/
def charsAfterStart : List Char → List Char → Option (List Char)
  | [], xs => some xs
  | _ :: _, [] => none
  | p :: ps, x :: xs => if p = x then charsAfterStart ps xs else none

/-- Everything after the first occurrence of `sep` in `xs`
(`none` when `sep` does not occur). -/
def charsAfterFirst (sep : List Char) : Nat → List Char → Option (List Char)
  | 0, _ => none
  | fuel + 1, xs =>
    match charsAfterStart sep xs with
    | some rest => some rest
    | none =>
      match xs with
      | [] => none
      | _ :: t => charsAfterFirst sep fuel t

/-- Python `s.split(sep, 1)[1]`: `none` models the `IndexError` raised
when `sep` does not occur in `s`. -/
def pySplitAfter? (s sep : String) : Option String :=
  (charsAfterFirst sep.toList (s.toList.length + 1) s.toList).map fun cs => String.mk cs

/-- Split a character list at the first occurrence of `c`: the part before
it, and (when `c` occurs) the part after it. -/
def breakAtChar (c : Char) : List Char → List Char × Option (List Char)
  | [] => ([], none)
  | x :: xs =>
    if x = c then ([], some xs)
    else
      let r := breakAtChar c xs
      (x :: r.1, r.2)

/-- Split a character list on every occurrence of `c`. -/
def splitAtChar (c : Char) : List Char → List (List Char)
  | [] => [[]]
  | x :: xs =>
    if x = c then [] :: splitAtChar c xs
    else
      match splitAtChar c xs with
      | [] => [[x]]
      | piece :: rest => (x :: piece) :: rest

/-! ## URL targets and `httpx` query merging -/

/-- The path and decoded query of a request URL under the base URL. -/
structure Target where
  path : String
  query : List (String × String)
  deriving Repr, DecidableEq

/-- One `k=v` pair of a query string (a pair without `=` gets value `""`,
as `httpx` decodes it). -/
def parsePair (kv : List Char) : String × String :=
  let r := breakAtChar '=' kv
  (String.mk r.1, String.mk (r.2.getD []))

/-- Decode a query string into its ordered key-value pairs. -/
def parseQuery (q : List Char) : List (String × String) :=
  match q with
  | [] => []
  | _ => (splitAtChar '&' q).map parsePair

/-- Parse a path-plus-query string (everything after `BASE_URL/`) the way
`httpx.URL` does: the query starts at the first `?`. -/
def parseTarget (pathq : String) : Target :=
  let r := breakAtChar '?' pathq.toList
  ⟨String.mk r.1, match r.2 with | none => [] | some q => parseQuery q⟩

/-- `httpx` `QueryParams.merge`, the Python dict update
`\x7b**urlQ, **newQ\x7d`: keys of `urlQ` keep their positions but take
`newQ`'s value when present there; keys only in `newQ` are appended. -/
def mergeParams (urlQ newQ : List (String × String)) : List (String × String) :=
  (urlQ.map fun kv =>
    match newQ.find? (fun kv₂ => kv₂.1 == kv.1) with
    | some kv₂ => (kv.1, kv₂.2)
    | none => kv)
  ++ newQ.filter fun kv₂ => !(urlQ.any fun kv => kv.1 == kv₂.1)

/-- The effective request target of `WaniKaniAPIClient._request(path, params)`:
`httpx` parses `f"BASE_URL/path"` and merges `params` into its query. -/
def buildRequest (path : String) (params : List (String × String)) : Target :=
  let t := parseTarget path
  ⟨t.path, mergeParams t.query params⟩

/-! ## The pagination walk (`WaniKaniAPIClient._subjects`)

The upstream endpoint is embedded as the finite list of responses it
returns, consumed in order, one per loop iteration; the walk records every
request it issues. A response body is `none` when its JSON lacks the
`pages`/`data` page structure (the Python loop raises `KeyError` there);
the HTTP status code is carried but — exactly as in `_request`, which
never checks it — not inspected by the walk. -/

def BASE_URL : String := "https://api.wanikani.com/v2"

/-- A well-formed page body: `\x7bpages: \x7bnext_url\x7d, data\x7d`. -/
structure PageBody where
  next_url : Option String
  data : List RawSubject
  deriving Repr, DecidableEq

structure Resp where
  status_code : Nat
  body : Option PageBody
  deriving Repr, DecidableEq

inductive WalkErr where
  /-- Model artifact: the response list ran out while the loop still
  wanted a page. -/
  | noResponse
  /-- `KeyError`: the JSON body lacks the `pages`/`data` structure. -/
  | malformedBody
  /-- `IndexError`: `next_url` does not contain `BASE_URL/`. -/
  | badNextUrl
  deriving Repr, DecidableEq

structure WalkOut where
  items : List RawSubject
  requests : List Target
  err : Option WalkErr
  deriving Repr, DecidableEq

/-- The filter map `_subjects` passes to `_request` on EVERY iteration of
its loop. -/
def filterParams (st : SubjectType) : List (String × String) :=
  [("types", st.value), ("hidden", "false")]

/-- The `while next_url is not None` loop of `_subjects`: request the
current path (merging `params` into its query), read `pages.next_url`,
strip `BASE_URL/` off it when present, then yield the page's `data` and
continue at the stripped URL. -/
def subjectsLoop (params : List (String × String)) : List Resp → String → WalkOut
  | [], path => ⟨[], [buildRequest path params], some .noResponse⟩
  | r :: rest, path =>
    match r.body with
    | none => ⟨[], [buildRequest path params], some .malformedBody⟩
    | some body =>
      match body.next_url with
      | none => ⟨body.data, [buildRequest path params], none⟩
      | some u =>
        match pySplitAfter? u (BASE_URL ++ "/") with
        | none => ⟨[], [buildRequest path params], some .badNextUrl⟩
        | some stripped =>
          ⟨body.data ++ (subjectsLoop params rest stripped).items,
            buildRequest path params :: (subjectsLoop params rest stripped).requests,
            (subjectsLoop params rest stripped).err⟩

/-- `WaniKaniAPIClient._subjects(subject_type)` run against the response
list `resps`, starting at path `"subjects"`. -/
def subjectsWalk (st : SubjectType) (resps : List Resp) : WalkOut :=
  subjectsLoop (filterParams st) resps "subjects"

/-- A response list that is a complete pagination chain: every body is
present, every page but the last has a `next_url` containing `BASE_URL/`,
and exactly the last page has `next_url` null. -/
def chainOk : List Resp → Bool
  | [] => false
  | [r] =>
    match r.body with
    | some b => b.next_url.isNone
    | none => false
  | r :: rest =>
    match r.body with
    | some b =>
      match b.next_url with
      | some u => (pySplitAfter? u (BASE_URL ++ "/")).isSome && chainOk rest
      | none => false
    | none => false

/-- The `data` array of a response (empty for a malformed body; only used
under hypotheses making every body well-formed). -/
def respData (r : Resp) : List RawSubject :=
  match r.body with
  | some b => b.data
  | none => []

/-- The stripped `next_url` of a response (defaulting to `""`; only used
under hypotheses making the strip succeed). -/
def respStripped (r : Resp) : String :=
  match r.body with
  | some b =>
    match b.next_url with
    | some u => (pySplitAfter? u (BASE_URL ++ "/")).getD ""
    | none => ""
  | none => ""

/-! ## Subject resolution (`radicals`, `kanji`, `vocabulary`)

`radicals()` calls `Radical(id=..., document_url=..., characters=...,
meanings=...)`. `models.Radical` declares a fifth mandatory field
`character_svg_path`, which that call does not pass, so the `attrs`
generated `__init__` raises `TypeError`. The keyword-argument call is
embedded as a record of optional arguments checked against the model's
field list. -/

structure RadicalKwargs where
  id : Option Nat := none
  document_url : Option String := none
  characters : Option (Option String) := none
  character_svg_path : Option (Option String) := none
  meanings : Option (List String) := none

/-- The `attrs`-generated `Radical.__init__`: every field of
`models.Radical` is mandatory (none has a default), so any missing
keyword argument raises `TypeError`. -/
def attrsRadical (kw : RadicalKwargs) : Except String Radical :=
  match kw.id, kw.document_url, kw.characters, kw.character_svg_path, kw.meanings with
  | some i, some du, some ch, some svg, some ms => .ok ⟨i, du, ch, svg, ms⟩
  | _, _, _, _, _ => .error "TypeError: missing required argument"

/-- The accepted-answer transform shared by all three resolvers:
`[e.meaning for e in entries if e.accepted_answer]`. -/
def acceptedMeanings (entries : List MeaningEntry) : List String :=
  (entries.filter fun m => m.accepted_answer).map fun m => m.meaning

/-- `[e.reading for e in entries if e.accepted_answer]`. -/
def acceptedReadings (entries : List ReadingEntry) : List String :=
  (entries.filter fun r => r.accepted_answer).map fun r => r.reading

/-- The per-item body of `radicals()`: the `Radical(...)` call as written
in `wanikani.py`, which does not pass `character_svg_path`. -/
def radicalOfRaw (raw : RawSubject) : Except String Radical :=
  attrsRadical
    { id := some raw.id
      document_url := some raw.data.document_url
      characters := some raw.data.characters
      meanings := some (acceptedMeanings raw.data.meanings) }

/-- The per-item body of `kanji()`. -/
def kanjiOfRaw (raw : RawSubject) : Kanji :=
  ⟨raw.id, raw.data.document_url, raw.data.characters,
    acceptedMeanings raw.data.meanings, acceptedReadings raw.data.readings⟩

/-- The per-item body of `vocabulary()`. -/
def vocabularyOfRaw (raw : RawSubject) : Vocabulary :=
  ⟨raw.id, raw.data.document_url, raw.data.characters,
    acceptedMeanings raw.data.meanings, acceptedReadings raw.data.readings⟩

/-! ## Assignments (`WaniKaniAPIClient.assignments`) -/

structure RawAssignmentData where
  subject_id : Nat
  subject_type : String
  srs_stage : Nat
  available_at : String
  deriving Repr, DecidableEq

structure RawAssignment where
  data : RawAssignmentData
  deriving Repr, DecidableEq

inductive AssignmentErr where
  /-- Python `KeyError(subject_id)` from the store lookup
  `DB.<partition>[subject_id]`. -/
  | keyError (subject_id : Nat)
  /-- `raise NotImplementedError` on a `subject_type` outside the enum. -/
  | notImplementedError
  deriving Repr, DecidableEq

/-- The per-item body of `assignments()`: dispatch on `subject_type` by
exact string comparison against the `str`-enum members, look the subject
up in the matching store partition, and build the `Assignment`. -/
def resolveAssignment (db : Database) (a : RawAssignment) : Except AssignmentErr Assignment :=
  let sid := a.data.subject_id
  if a.data.subject_type = SubjectType.RADICAL.value then
    match dictGet? db.radical sid with
    | some r => .ok ⟨.radical r, a.data.srs_stage, a.data.available_at⟩
    | none => .error (.keyError sid)
  else if a.data.subject_type = SubjectType.KANJI.value then
    match dictGet? db.kanji sid with
    | some k => .ok ⟨.kanji k, a.data.srs_stage, a.data.available_at⟩
    | none => .error (.keyError sid)
  else if a.data.subject_type = SubjectType.VOCABULARY.value then
    match dictGet? db.vocabulary sid with
    | some v => .ok ⟨.vocabulary v, a.data.srs_stage, a.data.available_at⟩
    | none => .error (.keyError sid)
  else .error .notImplementedError

/-- `assignments()` over a full response `data` array: the generator
resolves items in order and raises at the first failing one. -/
def assignmentsRun (db : Database) : List RawAssignment → Except AssignmentErr (List Assignment)
  | [] => .ok []
  | a :: rest =>
    match resolveAssignment db a with
    | .ok x => (assignmentsRun db rest).map fun l => x :: l
    | .error e => .error e

/-! ## Store population (`db.populate_db`)

`populate_db` creates three tasks and awaits vocabulary, then kanji, then
radicals. The tasks only append to pairwise-disjoint partitions of the
shared `DB`, so the final store does not depend on how the cooperative
scheduler interleaves them; each stream is embedded as the list of
subjects it produces before either finishing or failing, plus its
optional failure. The first failure in await order (vocabulary, kanji,
radicals) is the exception that propagates out of `populate_db`. -/

structure PopStream (α : Type) where
  items : List α
  err : Option String

def populateRadicals (db : Database) (items : List Radical) : Database :=
  { db with radical := items.foldl (fun m r => dictInsert m r.id r) db.radical }

def populateKanji (db : Database) (items : List Kanji) : Database :=
  { db with kanji := items.foldl (fun m k => dictInsert m k.id k) db.kanji }

def populateVocabulary (db : Database) (items : List Vocabulary) : Database :=
  { db with vocabulary := items.foldl (fun m v => dictInsert m v.id v) db.vocabulary }

def populate_db (db : Database) (rs : PopStream Radical) (ks : PopStream Kanji)
    (vs : PopStream Vocabulary) : Database × Option String :=
  let db₁ := populateRadicals db rs.items
  let db₂ := populateKanji db₁ ks.items
  let db₃ := populateVocabulary db₂ vs.items
  (db₃,
    match vs.err with
    | some e => some e
    | none =>
      match ks.err with
      | some e => some e
      | none => rs.err)

/-! ## Login key validation (`app.login`, POST branch) -/

/-- Modelled from the spec: `WaniKaniAPIClient.username` is absent from the
source tree (only its caller `app.login` and the test fakes exist).
Spec §6: `GET \x7bbase\x7d/user` is used solely to validate a submitted
key — success means valid, any non-2xx status is raised as an
`httpx.HTTPStatusError` carrying that status (`raise_for_status`
semantics: 2xx is the success range). -/
def username (userStatus : Nat) (name : String) : Except Nat String :=
  if 200 ≤ userStatus ∧ userStatus < 300 then .ok name else .error userStatus

inductive LoginResult where
  /-- The login form re-rendered with `invalid_api_key=True`, status 401. -/
  | invalidKeyPage (status : Nat)
  /-- Session key stored; redirect to the assignments page. -/
  | redirect (status : Nat) (session_api_key : String)
  /-- The `httpx.HTTPStatusError` re-raised out of the handler. -/
  | raised (status : Nat)
  deriving Repr, DecidableEq

/-- The POST branch of `app.login`: strip the submitted key, call
`username()`; on success store the key in the session and redirect with
303; on a 401 `HTTPStatusError` re-render the login form as invalid with
status 401; re-raise every other `HTTPStatusError`. -/
def loginPost (api_key : String) (userStatus : Nat) (name : String) : LoginResult :=
  let key := api_key.trim
  match username userStatus name with
  | .ok _ => .redirect 303 key
  | .error s => if s = 401 then .invalidKeyPage 401 else .raised s

/-! ## Lemmas: the association-list dictionary -/

theorem dictGet?_insert {α : Type} (m : List (Nat × α)) (k k₂ : Nat) (v : α) :
    dictGet? (dictInsert m k v) k₂ = if k = k₂ then some v else dictGet? m k₂ := by
  induction m with
  | nil => simp [dictInsert, dictGet?]
  | cons hd t ih =>
    obtain ⟨k₀, v₀⟩ := hd
    by_cases h₁ : k₀ = k
    · subst h₁
      by_cases h₂ : k₀ = k₂ <;> simp [dictInsert, dictGet?, h₂]
    · by_cases h₂ : k₀ = k₂
      · subst h₂
        have hne : ¬k = k₀ := fun hh => h₁ hh.symm
        simp [dictInsert, dictGet?, h₁, hne]
      · simp [dictInsert, dictGet?, h₁, h₂, ih]

theorem dictGet?_foldl_insert_not_mem {α : Type} (f : α → Nat) (items : List α)
    (m : List (Nat × α)) (k : Nat) (h : k ∉ items.map f) :
    dictGet? (items.foldl (fun acc x => dictInsert acc (f x) x) m) k = dictGet? m k := by
  induction items generalizing m with
  | nil => rfl
  | cons x t ih =>
    simp only [List.map_cons, List.mem_cons] at h
    push_neg at h
    simp only [List.foldl_cons]
    rw [ih _ h.2, dictGet?_insert, if_neg fun hh => h.1 hh.symm]

theorem dictGet?_foldl_insert_mem {α : Type} (f : α → Nat) (items : List α)
    (m : List (Nat × α)) (hnd : (items.map f).Nodup) :
    ∀ x ∈ items, dictGet? (items.foldl (fun acc y => dictInsert acc (f y) y) m) (f x) = some x := by
  induction items generalizing m with
  | nil => intro x hx; cases hx
  | cons y t ih =>
    simp only [List.map_cons, List.nodup_cons] at hnd
    intro x hx
    rcases List.mem_cons.mp hx with rfl | hxt
    · simp only [List.foldl_cons]
      rw [dictGet?_foldl_insert_not_mem f t _ _ hnd.1, dictGet?_insert, if_pos rfl]
    · simp only [List.foldl_cons]
      exact ih _ hnd.2 x hxt

theorem dictGet?_insert_keyed {α : Type} (m : List (Nat × α)) (f : α → Nat) (k₀ : Nat) (v : α)
    (hv : f v = k₀) (hm : ∀ k r, dictGet? m k = some r → f r = k) :
    ∀ k r, dictGet? (dictInsert m k₀ v) k = some r → f r = k := by
  intro k r h
  rw [dictGet?_insert] at h
  by_cases hk : k₀ = k
  · subst hk
    rw [if_pos rfl] at h
    cases h
    exact hv
  · rw [if_neg hk] at h
    exact hm k r h

theorem dictGet?_foldl_insert_keyed {α : Type} (f : α → Nat) (items : List α)
    (m : List (Nat × α)) (hm : ∀ k r, dictGet? m k = some r → f r = k) :
    ∀ k r, dictGet? (items.foldl (fun acc y => dictInsert acc (f y) y) m) k = some r → f r = k := by
  induction items generalizing m with
  | nil => exact hm
  | cons y t ih =>
    simp only [List.foldl_cons]
    exact ih _ (dictGet?_insert_keyed m f (f y) y rfl hm)

/-! ## Claims about the store and its population (C10, C2) -/

/-- Every key of every partition maps to a subject whose own `id` is that
key. -/
def dbInvariant (db : Database) : Prop :=
  (∀ k r, dictGet? db.radical k = some r → r.id = k) ∧
  (∀ k c, dictGet? db.kanji k = some c → c.id = k) ∧
  (∀ k v, dictGet? db.vocabulary k = some v → v.id = k)

/-- One full `populate_db` run, viewed as a state transition of the store. -/
def populateStep (db : Database)
    (t : PopStream Radical × PopStream Kanji × PopStream Vocabulary) : Database :=
  (populate_db db t.1 t.2.1 t.2.2).1

theorem dbInvariant_empty : dbInvariant Database.empty := by
  refine ⟨?_, ?_, ?_⟩ <;> intro k x h <;> simp [Database.empty, dictGet?] at h

theorem dbInvariant_populateStep (db : Database)
    (t : PopStream Radical × PopStream Kanji × PopStream Vocabulary)
    (h : dbInvariant db) : dbInvariant (populateStep db t) := by
  obtain ⟨h₁, h₂, h₃⟩ := h
  refine ⟨?_, ?_, ?_⟩
  · intro k r hk
    have he : (populateStep db t).radical =
        t.1.items.foldl (fun acc y => dictInsert acc y.id y) db.radical := rfl
    rw [he] at hk
    exact dictGet?_foldl_insert_keyed Radical.id t.1.items db.radical h₁ k r hk
  · intro k c hk
    have he : (populateStep db t).kanji =
        t.2.1.items.foldl (fun acc y => dictInsert acc y.id y) db.kanji := rfl
    rw [he] at hk
    exact dictGet?_foldl_insert_keyed Kanji.id t.2.1.items db.kanji h₂ k c hk
  · intro k v hk
    have he : (populateStep db t).vocabulary =
        t.2.2.items.foldl (fun acc y => dictInsert acc y.id y) db.vocabulary := rfl
    rw [he] at hk
    exact dictGet?_foldl_insert_keyed Vocabulary.id t.2.2.items db.vocabulary h₃ k v hk

/-- C10: every population insertion stores a subject under its own id, so
after any sequence of population runs starting from the empty store, every
key `k` present in the radical, kanji, or vocabulary partition holds a
record whose `id` equals `k`. -/
theorem store_keys_match_subject_ids
    (runs : List (PopStream Radical × PopStream Kanji × PopStream Vocabulary)) :
    dbInvariant (runs.foldl populateStep Database.empty) := by
  have main : ∀ (l : List (PopStream Radical × PopStream Kanji × PopStream Vocabulary))
      (db : Database), dbInvariant db → dbInvariant (l.foldl populateStep db) := by
    intro l
    induction l with
    | nil => intro db h; exact h
    | cons t rest ih =>
      intro db h
      simpa only [List.foldl_cons] using ih _ (dbInvariant_populateStep db t h)
  exact main runs Database.empty dbInvariant_empty

/-- C2: `populate_db` reports success exactly when none of the three
streams failed; on success each partition contains every subject its
stream produced, keyed by its id (streams with pairwise-distinct ids, the
upstream invariant); any stream failure makes `populate_db` surface a
failure instead of success. -/
theorem populate_db_drains_and_propagates (db : Database)
    (rs : PopStream Radical) (ks : PopStream Kanji) (vs : PopStream Vocabulary)
    (hr : (rs.items.map Radical.id).Nodup)
    (hk : (ks.items.map Kanji.id).Nodup)
    (hv : (vs.items.map Vocabulary.id).Nodup) :
    ((populate_db db rs ks vs).2 = none ↔ rs.err = none ∧ ks.err = none ∧ vs.err = none) ∧
    ((populate_db db rs ks vs).2 = none →
      (∀ r ∈ rs.items, dictGet? (populate_db db rs ks vs).1.radical r.id = some r) ∧
      (∀ c ∈ ks.items, dictGet? (populate_db db rs ks vs).1.kanji c.id = some c) ∧
      (∀ v ∈ vs.items, dictGet? (populate_db db rs ks vs).1.vocabulary v.id = some v)) := by
  constructor
  · cases hvs : vs.err <;> cases hks : ks.err <;> cases hrs : rs.err <;>
      simp [populate_db, hvs, hks, hrs]
  · intro _
    refine ⟨?_, ?_, ?_⟩
    · intro r hrm
      have he : (populate_db db rs ks vs).1.radical =
          rs.items.foldl (fun acc y => dictInsert acc y.id y) db.radical := rfl
      rw [he]
      exact dictGet?_foldl_insert_mem Radical.id rs.items db.radical hr r hrm
    · intro c hcm
      have he : (populate_db db rs ks vs).1.kanji =
          ks.items.foldl (fun acc y => dictInsert acc y.id y) db.kanji := rfl
      rw [he]
      exact dictGet?_foldl_insert_mem Kanji.id ks.items db.kanji hk c hcm
    · intro v hvm
      have he : (populate_db db rs ks vs).1.vocabulary =
          vs.items.foldl (fun acc y => dictInsert acc y.id y) db.vocabulary := rfl
      rw [he]
      exact dictGet?_foldl_insert_mem Vocabulary.id vs.items db.vocabulary hv v hvm

def wRad : Radical := ⟨3, "url-r", some "人", none, ["person"]⟩

def wKan : Kanji := ⟨3, "url-k", some "日", ["day"], ["にち"]⟩

def wVoc : Vocabulary := ⟨9, "url-v", some "一人", ["alone"], ["ひとり"]⟩

theorem populate_db_drains_witness :
    (populate_db Database.empty ⟨[wRad], none⟩ ⟨[wKan], none⟩ ⟨[wVoc], none⟩).2 = none ∧
    dictGet?
      (populate_db Database.empty ⟨[wRad], none⟩ ⟨[wKan], none⟩ ⟨[wVoc], none⟩).1.radical 3 =
      some wRad := by
  have h := populate_db_drains_and_propagates Database.empty
    ⟨[wRad], none⟩ ⟨[wKan], none⟩ ⟨[wVoc], none⟩ (by decide) (by decide) (by decide)
  have hok : (populate_db Database.empty ⟨[wRad], none⟩ ⟨[wKan], none⟩ ⟨[wVoc], none⟩).2 = none :=
    h.1.mpr ⟨rfl, rfl, rfl⟩
  have hm := (h.2 hok).1 wRad (List.mem_singleton.mpr rfl)
  exact ⟨hok, hm⟩

/-! ## Lemmas: the pagination walk -/

theorem subjectsLoop_nobody (params : List (String × String)) (r : Resp) (rest : List Resp)
    (path : String) (hb : r.body = none) :
    subjectsLoop params (r :: rest) path =
      ⟨[], [buildRequest path params], some .malformedBody⟩ := by
  simp only [subjectsLoop, hb]

theorem subjectsLoop_last (params : List (String × String)) (r : Resp) (rest : List Resp)
    (path : String) (b : PageBody) (hb : r.body = some b) (hn : b.next_url = none) :
    subjectsLoop params (r :: rest) path = ⟨b.data, [buildRequest path params], none⟩ := by
  simp only [subjectsLoop, hb, hn]

theorem subjectsLoop_badurl (params : List (String × String)) (r : Resp) (rest : List Resp)
    (path : String) (b : PageBody) (u : String) (hb : r.body = some b)
    (hn : b.next_url = some u) (hs : pySplitAfter? u (BASE_URL ++ "/") = none) :
    subjectsLoop params (r :: rest) path =
      ⟨[], [buildRequest path params], some .badNextUrl⟩ := by
  simp only [subjectsLoop, hb, hn, hs]

theorem subjectsLoop_step (params : List (String × String)) (r : Resp) (rest : List Resp)
    (path : String) (b : PageBody) (u stripped : String) (hb : r.body = some b)
    (hn : b.next_url = some u) (hs : pySplitAfter? u (BASE_URL ++ "/") = some stripped) :
    subjectsLoop params (r :: rest) path =
      ⟨b.data ++ (subjectsLoop params rest stripped).items,
        buildRequest path params :: (subjectsLoop params rest stripped).requests,
        (subjectsLoop params rest stripped).err⟩ := by
  simp only [subjectsLoop, hb, hn, hs]

theorem subjectsLoop_chain (params : List (String × String)) :
    ∀ resps : List Resp, chainOk resps = true → ∀ path : String,
      (subjectsLoop params resps path).items = (resps.map respData).flatten ∧
      (subjectsLoop params resps path).err = none ∧
      (subjectsLoop params resps path).requests.length = resps.length := by
  intro resps
  induction resps with
  | nil => intro h; simp [chainOk] at h
  | cons r rest ih =>
    intro h path
    cases rest with
    | nil =>
      cases hb : r.body with
      | none => simp [chainOk, hb] at h
      | some b =>
        cases hn : b.next_url with
        | some u => simp [chainOk, hb, hn] at h
        | none =>
          rw [subjectsLoop_last params r [] path b hb hn]
          simp [respData, hb]
    | cons r₂ t =>
      cases hb : r.body with
      | none => simp [chainOk, hb] at h
      | some b =>
        cases hn : b.next_url with
        | none => simp [chainOk, hb, hn] at h
        | some u =>
          cases hs : pySplitAfter? u (BASE_URL ++ "/") with
          | none => simp [chainOk, hb, hn, hs] at h
          | some stripped =>
            have hrest : chainOk (r₂ :: t) = true := by
              simp [chainOk, hb, hn, hs] at h
              exact h
            obtain ⟨hi, he, hl⟩ := ih hrest stripped
            rw [subjectsLoop_step params r (r₂ :: t) path b u stripped hb hn hs]
            refine ⟨?_, he, ?_⟩
            · simp [hi, respData, hb]
            · simp [hl]

theorem subjectsLoop_requests (params : List (String × String)) :
    ∀ resps : List Resp, chainOk resps = true → ∀ path : String,
      (subjectsLoop params resps path).requests =
        (path :: resps.dropLast.map respStripped).map fun p => buildRequest p params := by
  intro resps
  induction resps with
  | nil => intro h; simp [chainOk] at h
  | cons r rest ih =>
    intro h path
    cases rest with
    | nil =>
      cases hb : r.body with
      | none => simp [chainOk, hb] at h
      | some b =>
        cases hn : b.next_url with
        | some u => simp [chainOk, hb, hn] at h
        | none =>
          rw [subjectsLoop_last params r [] path b hb hn]
          simp
    | cons r₂ t =>
      cases hb : r.body with
      | none => simp [chainOk, hb] at h
      | some b =>
        cases hn : b.next_url with
        | none => simp [chainOk, hb, hn] at h
        | some u =>
          cases hs : pySplitAfter? u (BASE_URL ++ "/") with
          | none => simp [chainOk, hb, hn, hs] at h
          | some stripped =>
            have hrest : chainOk (r₂ :: t) = true := by
              simp [chainOk, hb, hn, hs] at h
              exact h
            have hstr : respStripped r = stripped := by
              simp [respStripped, hb, hn, hs]
            rw [subjectsLoop_step params r (r₂ :: t) path b u stripped hb hn hs]
            simp [ih hrest stripped, hstr]

theorem subjectsLoop_body_only (params : List (String × String)) :
    ∀ resps₁ resps₂ : List Resp, resps₁.map Resp.body = resps₂.map Resp.body →
      ∀ path : String, subjectsLoop params resps₁ path = subjectsLoop params resps₂ path := by
  intro resps₁
  induction resps₁ with
  | nil =>
    intro resps₂ h path
    cases resps₂ with
    | nil => rfl
    | cons r₂ t₂ => simp at h
  | cons r t ih =>
    intro resps₂ h path
    cases resps₂ with
    | nil => simp at h
    | cons r₂ t₂ =>
      simp only [List.map_cons, List.cons.injEq] at h
      obtain ⟨hb, ht⟩ := h
      cases hb₂ : r₂.body with
      | none =>
        rw [subjectsLoop_nobody params r t path (hb.trans hb₂),
          subjectsLoop_nobody params r₂ t₂ path hb₂]
      | some body =>
        cases hn : body.next_url with
        | none =>
          rw [subjectsLoop_last params r t path body (hb.trans hb₂) hn,
            subjectsLoop_last params r₂ t₂ path body hb₂ hn]
        | some u =>
          cases hs : pySplitAfter? u (BASE_URL ++ "/") with
          | none =>
            rw [subjectsLoop_badurl params r t path body u (hb.trans hb₂) hn hs,
              subjectsLoop_badurl params r₂ t₂ path body u hb₂ hn hs]
          | some stripped =>
            rw [subjectsLoop_step params r t path body u stripped (hb.trans hb₂) hn hs,
              subjectsLoop_step params r₂ t₂ path body u stripped hb₂ hn hs,
              ih t₂ ht stripped]

/-- One well-formed non-terminal step of a pagination chain: body present,
`next_url` present and containing `BASE_URL/`. -/
def chainStep (r : Resp) : Bool :=
  match r.body with
  | some b =>
    match b.next_url with
    | some u => (pySplitAfter? u (BASE_URL ++ "/")).isSome
    | none => false
  | none => false

theorem subjectsLoop_malformed (params : List (String × String)) :
    ∀ (good : List Resp) (s : Nat) (rest : List Resp) (path : String),
      good.all chainStep = true →
      (subjectsLoop params (good ++ ⟨s, none⟩ :: rest) path).err = some .malformedBody ∧
      (subjectsLoop params (good ++ ⟨s, none⟩ :: rest) path).items =
        (good.map respData).flatten := by
  intro good
  induction good with
  | nil =>
    intro s rest path _
    exact ⟨rfl, rfl⟩
  | cons g t ih =>
    intro s rest path h
    simp only [List.all_cons, Bool.and_eq_true] at h
    obtain ⟨hg, ht⟩ := h
    cases hb : g.body with
    | none => simp [chainStep, hb] at hg
    | some b =>
      cases hn : b.next_url with
      | none => simp [chainStep, hb, hn] at hg
      | some u =>
        cases hs : pySplitAfter? u (BASE_URL ++ "/") with
        | none => simp [chainStep, hb, hn, hs] at hg
        | some stripped =>
          obtain ⟨he, hi⟩ := ih s rest stripped ht
          rw [List.cons_append,
            subjectsLoop_step params g (t ++ ⟨s, none⟩ :: rest) path b u stripped hb hn hs]
          exact ⟨he, by simp [hi, respData, hb]⟩

/-! ## Claims about the pagination walk (C1, C3, C6) -/

/-- C1: run against any complete pagination chain, `_subjects` yields
exactly the concatenation of each page's `data` array in page order,
finishes without error, and issues exactly one request per page — it
walks every page and stops exactly at the page whose `next_url` is
null. -/
theorem subjects_yields_concatenation (st : SubjectType) (resps : List Resp)
    (h : chainOk resps = true) :
    (subjectsWalk st resps).items = (resps.map respData).flatten ∧
    (subjectsWalk st resps).err = none ∧
    (subjectsWalk st resps).requests.length = resps.length :=
  subjectsLoop_chain (filterParams st) resps h "subjects"

def c1RawA : RawSubject := ⟨7, ⟨"u7", some "日", [⟨"day", true⟩, ⟨"sun", false⟩], []⟩⟩

def c1RawB : RawSubject := ⟨8, ⟨"u8", some "月", [⟨"moon", true⟩], []⟩⟩

def c1Resps : List Resp :=
  [⟨200, some ⟨some (BASE_URL ++ "/subjects?types=kanji&hidden=false&page_after_id=12345"),
    [c1RawA]⟩⟩,
   ⟨200, some ⟨none, [c1RawB]⟩⟩]

theorem subjects_yields_concatenation_witness :
    chainOk c1Resps = true ∧
    (subjectsWalk .KANJI c1Resps).items = [c1RawA, c1RawB] ∧
    (subjectsWalk .KANJI c1Resps).err = none ∧
    (subjectsWalk .KANJI c1Resps).requests.length = 2 := by
  have h := subjects_yields_concatenation .KANJI c1Resps (by decide)
  exact ⟨by decide,
    h.1.trans (by decide : (c1Resps.map respData).flatten = [c1RawA, c1RawB]),
    h.2.1,
    h.2.2.trans (by decide : c1Resps.length = 2)⟩

def c3Resps : List Resp :=
  [⟨200, some ⟨some (BASE_URL ++ "/subjects?types=kanji&hidden=false&page_after_id=987"), []⟩⟩,
   ⟨200, some ⟨none, []⟩⟩]

/-- C3 counterexample: on a vocabulary walk whose first page's `next_url`
carries the query `types=kanji&hidden=false&page_after_id=987`, the second
request is NOT issued against exactly that path and query: the re-applied
filter map overrides `types` back to `vocabulary` (`httpx` merges request
params over the URL query). This mirrors `test_vocabulary`, whose second
mock matches `types=vocabulary` although `next_url` says `types=kanji`. -/
theorem subjects_reapplies_filter_counterexample :
    (subjectsWalk .VOCABULARY c3Resps).requests.getD 1 ⟨"", []⟩ =
      ⟨"subjects", [("types", "vocabulary"), ("hidden", "false"), ("page_after_id", "987")]⟩ ∧
    (subjectsWalk .VOCABULARY c3Resps).requests.getD 1 ⟨"", []⟩ ≠
      parseTarget "subjects?types=kanji&hidden=false&page_after_id=987" := by decide

/-- C3 amended: for every page after the first, `_subjects` issues its
request against the path and query encoded in the previous page's
`next_url` (base prefix stripped) MERGED with the re-applied original
filter map: the `types`/`hidden` parameters are passed again on every
request, overriding same-named parameters of `next_url` and leaving its
other parameters (such as `page_after_id`) intact. -/
theorem subjects_requests_follow_next_url_with_filter_reapplied (st : SubjectType)
    (resps : List Resp) (h : chainOk resps = true) :
    (subjectsWalk st resps).requests =
      ("subjects" :: resps.dropLast.map respStripped).map fun p =>
        buildRequest p (filterParams st) :=
  subjectsLoop_requests (filterParams st) resps h "subjects"

theorem subjects_requests_follow_next_url_witness :
    chainOk c3Resps = true ∧
    (subjectsWalk .VOCABULARY c3Resps).requests =
      ("subjects" :: c3Resps.dropLast.map respStripped).map fun p =>
        buildRequest p (filterParams .VOCABULARY) :=
  ⟨by decide,
    subjects_requests_follow_next_url_with_filter_reapplied .VOCABULARY c3Resps (by decide)⟩

def c6Raw : RawSubject := ⟨5, ⟨"u5", none, [⟨"ground", true⟩], []⟩⟩

def c6ErrResps : List Resp := [⟨500, some ⟨none, [c6Raw]⟩⟩]

/-- C6 counterexample: a response whose HTTP status is 500 but whose JSON
body is a well-formed terminal page does not abort the walk and surfaces
no error: `_request` and `_subjects` never inspect the status code, so the
page's items are yielded as usual. -/
theorem subjects_nonsuccess_not_aborting_counterexample :
    c6ErrResps.map (fun r => r.status_code) = [500] ∧
    (subjectsWalk .KANJI c6ErrResps).err = none ∧
    (subjectsWalk .KANJI c6ErrResps).items = [c6Raw] := by decide

/-- C6 amended: the pagination walk ignores HTTP status codes entirely —
its outcome depends only on the response bodies — and it aborts,
surfacing an error to the caller, exactly when a body lacks the expected
`pages`/`data` structure; items already yielded from the earlier pages are
not retracted. -/
theorem subjects_status_ignored_and_malformed_aborts :
    (∀ (st : SubjectType) (resps₁ resps₂ : List Resp),
      resps₁.map Resp.body = resps₂.map Resp.body →
      subjectsWalk st resps₁ = subjectsWalk st resps₂) ∧
    (∀ (st : SubjectType) (good : List Resp) (s : Nat) (rest : List Resp),
      good.all chainStep = true →
      (subjectsWalk st (good ++ ⟨s, none⟩ :: rest)).err = some WalkErr.malformedBody ∧
      (subjectsWalk st (good ++ ⟨s, none⟩ :: rest)).items = (good.map respData).flatten) :=
  ⟨fun st r₁ r₂ h => subjectsLoop_body_only (filterParams st) r₁ r₂ h "subjects",
   fun st good s rest h => subjectsLoop_malformed (filterParams st) good s rest "subjects" h⟩

def c6GoodPage : Resp :=
  ⟨200, some ⟨some (BASE_URL ++ "/subjects?types=radical&hidden=false&page_after_id=5"),
    [c6Raw]⟩⟩

theorem subjects_status_ignored_witness :
    subjectsWalk .RADICAL [⟨500, some ⟨none, [c6Raw]⟩⟩] =
      subjectsWalk .RADICAL [⟨200, some ⟨none, [c6Raw]⟩⟩] ∧
    (subjectsWalk .RADICAL [c6GoodPage, ⟨404, none⟩]).err = some WalkErr.malformedBody ∧
    (subjectsWalk .RADICAL [c6GoodPage, ⟨404, none⟩]).items = ([c6GoodPage].map respData).flatten := by
  have h₁ := subjects_status_ignored_and_malformed_aborts.1 .RADICAL
    [⟨500, some ⟨none, [c6Raw]⟩⟩] [⟨200, some ⟨none, [c6Raw]⟩⟩] rfl
  have h₂ := subjects_status_ignored_and_malformed_aborts.2 .RADICAL
    [c6GoodPage] 404 [] (by decide)
  exact ⟨h₁, h₂.1, h₂.2⟩

/-! ## Claims about subject resolution (C4, C7) -/

/-- C4: for every raw subject item whose `meanings` and `readings` entries
mix `accepted_answer` true and false, the kanji and vocabulary resolvers
produce meaning and reading lists holding exactly the entries whose
`accepted_answer` is true, in the original relative order of the upstream
arrays. -/
theorem kanji_vocabulary_accepted_filter (raw : RawSubject)
    (_hm₁ : ∃ e ∈ raw.data.meanings, e.accepted_answer = true)
    (_hm₂ : ∃ e ∈ raw.data.meanings, e.accepted_answer = false)
    (_hr₁ : ∃ e ∈ raw.data.readings, e.accepted_answer = true)
    (_hr₂ : ∃ e ∈ raw.data.readings, e.accepted_answer = false) :
    (kanjiOfRaw raw).meanings =
      (raw.data.meanings.filter fun e => e.accepted_answer).map MeaningEntry.meaning ∧
    (kanjiOfRaw raw).readings =
      (raw.data.readings.filter fun e => e.accepted_answer).map ReadingEntry.reading ∧
    (vocabularyOfRaw raw).meanings =
      (raw.data.meanings.filter fun e => e.accepted_answer).map MeaningEntry.meaning ∧
    (vocabularyOfRaw raw).readings =
      (raw.data.readings.filter fun e => e.accepted_answer).map ReadingEntry.reading :=
  ⟨rfl, rfl, rfl, rfl⟩

def c4Raw : RawSubject :=
  ⟨7, ⟨"u", some "日", [⟨"day", true⟩, ⟨"sun", false⟩], [⟨"にち", true⟩, ⟨"じつ", false⟩]⟩⟩

theorem kanji_vocabulary_accepted_filter_witness :
    (kanjiOfRaw c4Raw).meanings = ["day"] ∧ (vocabularyOfRaw c4Raw).readings = ["にち"] := by
  have h := kanji_vocabulary_accepted_filter c4Raw (by decide) (by decide) (by decide) (by decide)
  exact ⟨h.1.trans (by decide), h.2.2.2.trans (by decide)⟩

/-- C7 (code bug): `models.Radical` declares `character_svg_path` as a
mandatory field, but the `Radical(...)` call in `radicals()` — like every
other `Radical` construction in the repository's tests and factories —
omits it, so for EVERY raw radical item the `attrs` initializer raises
`TypeError` and no `Radical` record (in particular none carrying the
glyph-image reference the claim describes) is ever yielded. -/
theorem radicals_construction_raises_type_error (raw : RawSubject) :
    radicalOfRaw raw = Except.error "TypeError: missing required argument" := rfl

/-! ## Claims about assignment resolution (C5, C8) -/

theorem assignmentsRun_cons_ok (db : Database) (p : RawAssignment) (rest : List RawAssignment)
    (x : Assignment) (hp : resolveAssignment db p = .ok x) :
    assignmentsRun db (p :: rest) = (assignmentsRun db rest).map fun l => x :: l := by
  simp only [assignmentsRun, hp]

theorem assignmentsRun_cons_error (db : Database) (p : RawAssignment)
    (rest : List RawAssignment) (e : AssignmentErr) (hp : resolveAssignment db p = .error e) :
    assignmentsRun db (p :: rest) = .error e := by
  simp only [assignmentsRun, hp]

/-- C5: an assignment whose `subject_id` is absent from the store partition
selected by its `subject_type` makes `assignments()` raise the
distinguishable unresolved-subject error — Python `KeyError` carrying that
`subject_id` — and the whole run never reports success for a list
containing such an assignment: it is neither silently dropped nor
resolved to a partial record. -/
theorem assignments_missing_subject_raises (db : Database) (a : RawAssignment)
    (h : (a.data.subject_type = "radical" ∧ dictGet? db.radical a.data.subject_id = none) ∨
      (a.data.subject_type = "kanji" ∧ dictGet? db.kanji a.data.subject_id = none) ∨
      (a.data.subject_type = "vocabulary" ∧ dictGet? db.vocabulary a.data.subject_id = none)) :
    resolveAssignment db a = .error (.keyError a.data.subject_id) ∧
    ∀ (pre post : List RawAssignment) (res : List Assignment),
      assignmentsRun db (pre ++ a :: post) ≠ Except.ok res := by
  have hres : resolveAssignment db a = .error (.keyError a.data.subject_id) := by
    rcases h with ⟨ht, hd⟩ | ⟨ht, hd⟩ | ⟨ht, hd⟩ <;>
      simp [resolveAssignment, SubjectType.value, ht, hd]
  refine ⟨hres, ?_⟩
  intro pre
  induction pre with
  | nil =>
    intro post res
    simp [assignmentsRun, hres]
  | cons p t ih =>
    intro post res hcontra
    rw [List.cons_append] at hcontra
    cases hp : resolveAssignment db p with
    | error e =>
      rw [assignmentsRun_cons_error db p _ e hp] at hcontra
      simp at hcontra
    | ok x =>
      rw [assignmentsRun_cons_ok db p _ x hp] at hcontra
      cases hrun : assignmentsRun db (t ++ a :: post) with
      | error e₂ =>
        rw [hrun] at hcontra
        simp [Except.map] at hcontra
      | ok l => exact absurd hrun (ih post l)

def c5Assignment : RawAssignment := ⟨⟨42, "radical", 2, "2024-01-01T00:00:00Z"⟩⟩

theorem assignments_missing_subject_witness :
    resolveAssignment Database.empty c5Assignment = .error (.keyError 42) ∧
    assignmentsRun Database.empty [c5Assignment] ≠ Except.ok [] := by
  have h := assignments_missing_subject_raises Database.empty c5Assignment (Or.inl ⟨rfl, rfl⟩)
  exact ⟨h.1, h.2 [] [] []⟩

/-- C8: `assignments()` dispatches `subject_type` by exact string match to
exactly one store partition — `"radical"` resolves against the radical
partition (wrapping the found record as a radical subject or raising the
key error of that partition), `"kanji"` against kanji, `"vocabulary"`
against vocabulary — and any value outside that closed set raises the
unrecoverable unknown-subject-type error (`NotImplementedError`). -/
theorem assignments_subject_type_dispatch (db : Database) (a : RawAssignment) :
    (a.data.subject_type = "radical" →
      (∃ r, dictGet? db.radical a.data.subject_id = some r ∧
        resolveAssignment db a =
          .ok ⟨.radical r, a.data.srs_stage, a.data.available_at⟩) ∨
      (dictGet? db.radical a.data.subject_id = none ∧
        resolveAssignment db a = .error (.keyError a.data.subject_id))) ∧
    (a.data.subject_type = "kanji" →
      (∃ k, dictGet? db.kanji a.data.subject_id = some k ∧
        resolveAssignment db a =
          .ok ⟨.kanji k, a.data.srs_stage, a.data.available_at⟩) ∨
      (dictGet? db.kanji a.data.subject_id = none ∧
        resolveAssignment db a = .error (.keyError a.data.subject_id))) ∧
    (a.data.subject_type = "vocabulary" →
      (∃ v, dictGet? db.vocabulary a.data.subject_id = some v ∧
        resolveAssignment db a =
          .ok ⟨.vocabulary v, a.data.srs_stage, a.data.available_at⟩) ∨
      (dictGet? db.vocabulary a.data.subject_id = none ∧
        resolveAssignment db a = .error (.keyError a.data.subject_id))) ∧
    (a.data.subject_type ≠ "radical" → a.data.subject_type ≠ "kanji" →
      a.data.subject_type ≠ "vocabulary" →
      resolveAssignment db a = .error .notImplementedError) := by
  refine ⟨?_, ?_, ?_, ?_⟩
  · intro ht
    cases hd : dictGet? db.radical a.data.subject_id with
    | some r => exact Or.inl ⟨r, rfl, by simp [resolveAssignment, SubjectType.value, ht, hd]⟩
    | none => exact Or.inr ⟨rfl, by simp [resolveAssignment, SubjectType.value, ht, hd]⟩
  · intro ht
    cases hd : dictGet? db.kanji a.data.subject_id with
    | some k => exact Or.inl ⟨k, rfl, by simp [resolveAssignment, SubjectType.value, ht, hd]⟩
    | none => exact Or.inr ⟨rfl, by simp [resolveAssignment, SubjectType.value, ht, hd]⟩
  · intro ht
    cases hd : dictGet? db.vocabulary a.data.subject_id with
    | some v => exact Or.inl ⟨v, rfl, by simp [resolveAssignment, SubjectType.value, ht, hd]⟩
    | none => exact Or.inr ⟨rfl, by simp [resolveAssignment, SubjectType.value, ht, hd]⟩
  · intro h₁ h₂ h₃
    simp [resolveAssignment, SubjectType.value, h₁, h₂, h₃]

def c8Db : Database := ⟨[(3, wRad)], [], []⟩

def c8RadAssignment : RawAssignment := ⟨⟨3, "radical", 1, "2024-01-01T00:00:00Z"⟩⟩

def c8BadAssignment : RawAssignment := ⟨⟨3, "kana", 1, "2024-01-01T00:00:00Z"⟩⟩

theorem assignments_subject_type_dispatch_witness :
    ((∃ r, dictGet? c8Db.radical c8RadAssignment.data.subject_id = some r ∧
      resolveAssignment c8Db c8RadAssignment =
        .ok ⟨.radical r, c8RadAssignment.data.srs_stage, c8RadAssignment.data.available_at⟩) ∨
      (dictGet? c8Db.radical c8RadAssignment.data.subject_id = none ∧
        resolveAssignment c8Db c8RadAssignment =
          .error (.keyError c8RadAssignment.data.subject_id))) ∧
    resolveAssignment c8Db c8BadAssignment = .error .notImplementedError := by
  have h₁ := (assignments_subject_type_dispatch c8Db c8RadAssignment).1 rfl
  have h₂ := (assignments_subject_type_dispatch c8Db c8BadAssignment).2.2.2
    (by decide) (by decide) (by decide)
  exact ⟨h₁, h₂⟩

/-! ## Claim about login key validation (C9) -/

/-- C9: the key-validation call of the login handler classifies the
current-user endpoint's status three ways — any success (2xx) status
validates the key (the handler stores it and redirects), a 401 is the
distinguished invalid-credential condition (the login form is re-rendered
as invalid, with status 401), and every other non-2xx status is re-raised
to propagate as a server-side failure. -/
theorem login_key_validation_classifies_status (s : Nat) (k n : String) :
    (200 ≤ s ∧ s < 300 → loginPost k s n = .redirect 303 k.trim) ∧
    (s = 401 → loginPost k s n = .invalidKeyPage 401) ∧
    (¬(200 ≤ s ∧ s < 300) → s ≠ 401 → loginPost k s n = .raised s) := by
  refine ⟨?_, ?_, ?_⟩
  · intro h
    simp [loginPost, username, h]
  · intro h
    subst h
    simp [loginPost, username]
  · intro h₁ h₂
    simp [loginPost, username, h₁, h₂]

theorem login_key_validation_witness :
    loginPost "key" 204 "u" = .redirect 303 ("key".trim) ∧
    loginPost "key" 401 "u" = .invalidKeyPage 401 ∧
    loginPost "key" 503 "u" = .raised 503 := by
  have h₁ := (login_key_validation_classifies_status 204 "key" "u").1 (by decide)
  have h₂ := (login_key_validation_classifies_status 401 "key" "u").2.1 rfl
  have h₃ := (login_key_validation_classifies_status 503 "key" "u").2.2 (by decide) (by decide)
  exact ⟨h₁, h₂, h₃⟩

end WanikaniApprentice
